import Mathlib

/-!
# Verification of the client-side session-state reconciliation logic

Shallow embedding of the streaming-chat frontend core:

* `onUpdateEvent`, the archival `useEffect`, `handleSubmit` and `handleCancel`
  from `frontend/src/App.tsx`;
* the auxiliary-result (YouTube) rendering gate from
  `frontend/src/components/ChatMessagesView.tsx` (`AiMessageBubble`) and
  `frontend/src/components/YouTubeResults.tsx`.

JavaScript records with possibly-missing fields are embedded with `Option`
fields (`none` = the field is absent / `undefined`).  JS truthiness on strings
(`""` is falsy) and on optional values is made explicit at every use site.
JS numbers that only ever flow into display strings are embedded as `Rat`
(exact rationals in place of binary floats; no claim depends on float
rounding).  `Date.now()` and `Math.random()` are nondeterministic inputs and
are passed to the transition functions as explicit parameters.
-/

/-- A `ProcessedEvent` as consumed by the ActivityTimeline component:
a short title plus free-form descriptive text. -/
structure ProcessedEvent where
  title : String
  data : String
deriving Repr, DecidableEq

/-- A transcript message (`@langchain/langgraph-sdk` `Message`): the code reads
`type` (`"human"` / `"ai"`), `content`, and the optional `id`. -/
structure Message where
  typ : String
  content : String
  id : Option String
deriving Repr, DecidableEq

/-- A YouTube video record (`YouTubeVideo` interface in `YouTubeResults.tsx`). -/
structure YouTubeVideo where
  video_id : String
  title : String
  channel : String
  description : String
  thumbnail_url : String
  duration : String
  view_count : String
  published_at : String
deriving Repr, DecidableEq

/-- The raw YouTube result payload (`youtube_results` on a `youtube_action`
event; `videos`, `query` and `total_results` may each be absent). -/
structure YtPayload where
  videos : Option (List YouTubeVideo)
  query : Option String
  total_results : Option Nat
deriving Repr, DecidableEq

/-- What `setYoutubeResults` stores on a successful search:
`{...results, timestamp: Date.now(), threadId: currentThreadId}`. -/
structure StoredYt where
  payload : YtPayload
  timestamp : Nat
  threadId : String
deriving Repr, DecidableEq

/-- Sub-record of a `classify_intent` event; both fields may be absent. -/
structure ClassifyIntentEvt where
  intent_type : Option String
  confidence : Option Rat
deriving Repr, DecidableEq

/-- Sub-record of a `youtube_action` event. -/
structure YoutubeActionEvt where
  youtube_results : Option YtPayload
deriving Repr, DecidableEq

/-- The `query_list` field of a `generate_query` event: the code handles both
an array (joined) and a non-array value (stringified). -/
inductive QueryListVal where
  | arr (l : List String)
  | str (s : String)
deriving Repr, DecidableEq

/-- Sub-record of a `generate_query` event. -/
structure GenerateQueryEvt where
  query_list : Option QueryListVal
deriving Repr, DecidableEq

/-- One element of `sources_gathered`; only `label` is read, and it may be
absent. -/
structure SourceRec where
  label : Option String
deriving Repr, DecidableEq

/-- Sub-record of a `web_research` event. -/
structure WebResearchEvt where
  sources_gathered : Option (List SourceRec)
deriving Repr, DecidableEq

/-- Sub-record of a `reflection` event. -/
structure ReflectionEvt where
  is_sufficient : Option Bool
  follow_up_queries : Option (List String)
deriving Repr, DecidableEq

/-- A raw backend event record as dispatched by `onUpdateEvent`'s
`if`/`else if` chain.  Each recognized kind is an optional sub-record
(`none` = key absent or falsy, so the corresponding branch is not taken);
`finalize_answer` carries no fields the code reads, so only its
presence/truthiness is kept. -/
structure RawEvent where
  classify_intent : Option ClassifyIntentEvt
  youtube_action : Option YoutubeActionEvt
  generate_query : Option GenerateQueryEvt
  web_research : Option WebResearchEvt
  reflection : Option ReflectionEvt
  finalize_answer : Bool
deriving Repr, DecidableEq

/-- JS string interpolation of a possibly-`undefined` value:
`` `${x}` `` renders the literal `undefined` when the field is absent. -/
def jsStr : Option String → String
  | some s => s
  | none => "undefined"

/-- JS `Math.round(confidence * 100)` rendered into a template string:
`Math.round(undefined * 100)` is `NaN`, which interpolates as `"NaN"`;
for a present number, JS rounds half towards positive infinity, i.e.
`⌊x·100 + 1/2⌋`. -/
def jsRound100 : Option Rat → String
  | some c => toString (Int.floor (c * 100 + 1/2))
  | none => "NaN"

/-- JS `String.prototype.trim()`: remove whitespace from both ends. -/
def jsTrim (s : String) : String :=
  String.mk (((s.data.dropWhile Char.isWhitespace).reverse.dropWhile
    Char.isWhitespace).reverse)

/-- JS `Array.prototype.join(", ")`. -/
def joinComma : List String → String
  | [] => ""
  | [x] => x
  | x :: y :: xs => x ++ ", " ++ joinComma (y :: xs)

/-- Worker for `jsSetDedup`: `seen` accumulates elements already emitted. -/
def jsSetDedupAux (seen : List String) : List String → List String
  | [] => []
  | x :: xs =>
    if x ∈ seen then jsSetDedupAux seen xs
    else x :: jsSetDedupAux (x :: seen) xs

/-- JS `[...new Set(l)]`: deduplicate, keeping the first occurrence of each
element, preserving insertion order. -/
def jsSetDedup (l : List String) : List String :=
  jsSetDedupAux [] l

/-- JS `sources.map(s => s.label).filter(Boolean)`: the truthy labels, i.e.
present and non-empty, in order. -/
def truthyLabels (srcs : List SourceRec) : List String :=
  srcs.filterMap fun s =>
    match s.label with
    | some l => if l = "" then none else some l
    | none => none

/-- The config record passed to `thread.submit` in `handleSubmit`. -/
structure SubmitConfig where
  messages : List Message
  initial_search_query_count : Nat
  max_research_loops : Nat
  reasoning_model : String
deriving Repr, DecidableEq

/-- The state of the `App` component together with the transport collaborator
state it reads (`thread.messages`, `thread.isLoading`) and a record of the
last `thread.submit` call (`lastSubmit`).  `historicalActivities` is the
`Record<string, ProcessedEvent[]>` embedded as a lookup function. -/
structure AppState where
  processedEventsTimeline : List ProcessedEvent
  historicalActivities : String → Option (List ProcessedEvent)
  youtubeResults : Option StoredYt
  currentThreadId : String
  hasFinalizeEventOccurred : Bool
  messages : List Message
  isLoading : Bool
  lastSubmit : Option SubmitConfig

/-- The state of a freshly mounted `App` component: all `useState` initial
values, the ref `false`, and an idle transport. -/
def initialAppState : AppState where
  processedEventsTimeline := []
  historicalActivities := fun _ => none
  youtubeResults := none
  currentThreadId := ""
  hasFinalizeEventOccurred := false
  messages := []
  isLoading := false
  lastSubmit := none

/-- The tail of `onUpdateEvent`: `setProcessedEventsTimeline(prev => [...prev,
processedEvent])`. -/
def pushEvent (s : AppState) (e : ProcessedEvent) : AppState :=
  { s with processedEventsTimeline := s.processedEventsTimeline ++ [e] }

/-- The data string of the `web_research` branch of `onUpdateEvent`. -/
def webResearchData (sources : List SourceRec) : String :=
  let numSources := sources.length
  let uniqueLabels := jsSetDedup (truthyLabels sources)
  let exampleLabels := joinComma (uniqueLabels.take 3)
  "Gathered " ++ toString numSources ++ " sources. Related to: " ++
    (if exampleLabels = "" then "N/A" else exampleLabels) ++ "."

/-- The `onUpdateEvent` callback of `useStream` in `App.tsx`: classifies one
raw event by its `if`/`else if` chain, appending at most one
`ProcessedEvent` to the timeline; the `youtube_action` branch may also store
a stabilized result payload, and the `finalize_answer` branch sets the
`hasFinalizeEventOccurredRef` flag.  `now` stands for `Date.now()`. -/
def onUpdateEvent (event : RawEvent) (now : Nat) (s : AppState) : AppState :=
  match event.classify_intent with
  | some ci =>
    pushEvent s ⟨"Analyzing Intent",
      "Detected: " ++ jsStr ci.intent_type ++ " (" ++
        jsRound100 ci.confidence ++ "% confidence)"⟩
  | none =>
  match event.youtube_action with
  | some ya =>
    match ya.youtube_results with
    | some r =>
      match r.videos with
      | some vs =>
        if vs.length ≠ 0 then
          pushEvent { s with youtubeResults := some ⟨r, now, s.currentThreadId⟩ }
            ⟨"YouTube Search",
              "Found " ++ toString vs.length ++ " videos for \"" ++
                jsStr r.query ++ "\""⟩
        else
          pushEvent s ⟨"YouTube Search", "No videos found or YouTube not configured"⟩
      | none =>
        pushEvent s ⟨"YouTube Search", "No videos found or YouTube not configured"⟩
    | none =>
      pushEvent s ⟨"YouTube Search", "No videos found or YouTube not configured"⟩
  | none =>
  match event.generate_query with
  | some gq =>
    pushEvent s ⟨"Generating Search Queries",
      match gq.query_list with
      | none => ""
      | some (.arr l) => joinComma l
      | some (.str str) => if str = "" then "" else str⟩
  | none =>
  match event.web_research with
  | some wr =>
    pushEvent s ⟨"Web Research", webResearchData (wr.sources_gathered.getD [])⟩
  | none =>
  match event.reflection with
  | some r =>
    pushEvent s ⟨"Reflection",
      if r.is_sufficient.getD false then
        "Search successful, generating final answer."
      else
        "Need more information, searching for " ++
          (match r.follow_up_queries with
           | none => "additional information"
           | some qs =>
             let j := joinComma qs
             if j = "" then "additional information" else j)⟩
  | none =>
  if event.finalize_answer then
    pushEvent { s with hasFinalizeEventOccurred := true }
      ⟨"Finalizing Answer", "Composing and presenting the final answer."⟩
  else s

/-- The archival `useEffect` body in `App.tsx`: when the finalize flag is set,
loading is over and the transcript is non-empty, archive the current
timeline under the last message's id (only when that message is an `"ai"`
message with a truthy id) and reset the flag.  In the source the flag reset
is written once, after the inner `if`; it is distributed here into each
inner branch, which denotes the same state. -/
def archiveEffect (s : AppState) : AppState :=
  if s.hasFinalizeEventOccurred && !s.isLoading && s.messages.length != 0 then
    match s.messages.getLast? with
    | some lm =>
      match lm.id with
      | some mid =>
        if lm.typ == "ai" && mid != "" then
          { s with
            historicalActivities := fun k =>
              if k = mid then some s.processedEventsTimeline
              else s.historicalActivities k,
            hasFinalizeEventOccurred := false }
        else { s with hasFinalizeEventOccurred := false }
      | none => { s with hasFinalizeEventOccurred := false }
    | none => { s with hasFinalizeEventOccurred := false }
  else s

/-- The message id (if any) that a run of the archival effect on `s` would
record under: the last message's id, provided the effect's guard holds and
the last message is an `"ai"` message with a truthy id. -/
def archiveTarget (s : AppState) : Option String :=
  if s.hasFinalizeEventOccurred && !s.isLoading && s.messages.length != 0 then
    match s.messages.getLast? with
    | some lm =>
      match lm.id with
      | some mid => if lm.typ == "ai" && mid != "" then some mid else none
      | none => none
    | none => none
  else none

/-- `handleSubmit` from `App.tsx`.  `now` stands for `Date.now()` and `rid`
for the `Math.random().toString(36).substr(2, 9)` suffix of the generated
thread id.  The transport (`useStream`) is modelled by: `thread.submit`
appends the submitted messages optimistically and turns `isLoading` on; the
submitted config is recorded in `lastSubmit`. -/
def handleSubmit (s : AppState) (submittedInputValue effort model : String)
    (now : Nat) (rid : String) : AppState :=
  if jsTrim submittedInputValue = "" then s
  else
    let newThreadId := "thread_" ++ toString now ++ "_" ++ rid
    let counts : Nat × Nat :=
      if effort = "low" then (1, 1)
      else if effort = "medium" then (3, 3)
      else if effort = "high" then (5, 10)
      else (0, 0)
    let newMessages := s.messages ++ [⟨"human", submittedInputValue, some (toString now)⟩]
    { s with
      currentThreadId := newThreadId
      processedEventsTimeline := []
      youtubeResults := if s.isLoading then s.youtubeResults else none
      hasFinalizeEventOccurred := false
      messages := newMessages
      isLoading := true
      lastSubmit := some ⟨newMessages, counts.1, counts.2, model⟩ }

/-- The state changes `handleCancel` performs before the reload:
`thread.stop()` (loading off), `setYoutubeResults(null)`,
`setCurrentThreadId("")`. -/
def handleCancelPreReload (s : AppState) : AppState :=
  { s with isLoading := false, youtubeResults := none, currentThreadId := "" }

/-- `handleCancel` from `App.tsx`: after stopping the stream and clearing the
YouTube results and thread id, it calls `window.location.reload()`, which
discards the whole page state and remounts `App` in its initial state; the
post-cancel state is therefore `initialAppState`. -/
def handleCancel (_s : AppState) : AppState :=
  initialAppState

/-- Whether a raw event carries a non-empty YouTube result payload, i.e. the
condition `results && results.videos && results.videos.length > 0` of the
`youtube_action` branch. -/
def ytEventNonEmpty (event : RawEvent) : Bool :=
  match event.youtube_action with
  | some ya =>
    match ya.youtube_results with
    | some r =>
      match r.videos with
      | some vs => vs.length != 0
      | none => false
    | none => false
  | none => false

/-- A raw event none of whose recognized kind keys is present (the
`finalize_answer` key absent or falsy as well): every branch of the
`if`/`else if` chain in `onUpdateEvent` is skipped. -/
def noKindEvent (event : RawEvent) : Prop :=
  event.classify_intent = none ∧ event.youtube_action = none ∧
    event.generate_query = none ∧ event.web_research = none ∧
    event.reflection = none ∧ event.finalize_answer = false

/-!
## The auxiliary-result rendering gate

The view pipeline for the YouTube payload, from
`ChatMessagesView.tsx` / `YouTubeResults.tsx` (fixed versions):

* `ChatMessagesView` maps the transcript; entry `i` is last iff
  `i = messages.length - 1`; a `"human"` message renders a
  `HumanMessageBubble` (no payload), anything else an `AiMessageBubble`
  receiving `youtubeResults={isLast ? youtubeResults : undefined}`;
* `AiMessageBubble.shouldShowYouTube` requires `isLastMessage` and a stored
  payload with a non-empty `videos` array;
* the `YouTubeResults` component itself returns `null` when
  `!results || !results.videos || results.videos.length === 0 || !isVisible`,
  where `isVisible` is component-local state driven by an
  `IntersectionObserver` on the surrounding container (a viewport signal,
  not stored session state).
-/

/-- Truthiness of `youtubeResults && youtubeResults.videos &&
Array.isArray(youtubeResults.videos) && youtubeResults.videos.length > 0`. -/
def ytNonEmpty : Option StoredYt → Bool
  | none => false
  | some y =>
    match y.payload.videos with
    | some vs => vs.length != 0
    | none => false

/-- `AiMessageBubble.shouldShowYouTube`. -/
def shouldShowYouTube (isLastMessage : Bool) (youtubeResults : Option StoredYt) : Bool :=
  isLastMessage && ytNonEmpty youtubeResults

/-- Whether the `YouTubeResults` component renders a non-null tree, given its
`results` prop and its local `isVisible` state: the component body is
`if (!results || !results.videos || results.videos.length === 0 ||
!isVisible) return null`. -/
def youTubeResultsRenders (results : Option StoredYt) (isVisible : Bool) : Bool :=
  ytNonEmpty results && isVisible

/-- Whether the rendered transcript displays the auxiliary YouTube payload on
entry `i` (0-based), as a function of the stored state the view reads
(transcript `messages`, stored payload `yt`, loading flag) plus the
`YouTubeResults` component's local `isVisible` flag. -/
def renderShowsYt (messages : List Message) (yt : Option StoredYt)
    (_isLoading : Bool) (i : Nat) (isVisible : Bool) : Bool :=
  match messages[i]? with
  | none => false
  | some m =>
    !(m.typ == "human") &&
      (shouldShowYouTube (i + 1 == messages.length)
          (if i + 1 == messages.length then yt else none) &&
        youTubeResultsRenders (if i + 1 == messages.length then yt else none)
          isVisible)

/-!
## Spec-side definitions

For claims stated as input/output contracts, a second definition written from
the specification's words, to be compared with the embedded code.
-/

/-- Written from the spec: the distinct non-empty source labels, in order of
first occurrence; `seen` accumulates labels already taken. -/
def specFirstDistinctLabels : List SourceRec → List String → List String
  | [], _ => []
  | src :: rest, seen =>
    match src.label with
    | some l =>
      if l != "" && !(seen.contains l) then l :: specFirstDistinctLabels rest (l :: seen)
      else specFirstDistinctLabels rest seen
    | none => specFirstDistinctLabels rest seen

/-- Written from the spec: the Progress summary of an external-research event
reports the count of gathered sources followed by the comma-join of the
first three distinct non-empty source labels, with the literal `"N/A"` when
no such label exists. -/
def specWebSummary (sources : List SourceRec) : String :=
  let labs := (specFirstDistinctLabels sources []).take 3
  "Gathered " ++ toString sources.length ++ " sources. Related to: " ++
    (if labs.isEmpty then "N/A" else joinComma labs) ++ "."

/-!
## Concrete example data

Fixed inputs and states used by witnesses and counterexamples.
-/

/-- The Progress event produced by a `finalize_answer` record. -/
def finE : ProcessedEvent :=
  ⟨"Finalizing Answer", "Composing and presenting the final answer."⟩

/-- A raw `finalize_answer` event. -/
def evFin : RawEvent := ⟨none, none, none, none, none, true⟩

/-- A session state just after turn A finished streaming: the terminal flag is
set, loading is over, the transcript ends in the completed assistant message
`"m1"`, and the turn buffered one event. -/
def cs0 : AppState where
  processedEventsTimeline := [finE]
  historicalActivities := fun _ => none
  youtubeResults := none
  currentThreadId := "thread_1_abc"
  hasFinalizeEventOccurred := true
  messages := [⟨"human", "q", some "1"⟩, ⟨"ai", "ans", some "m1"⟩]
  isLoading := false
  lastSubmit := none

/-- A concrete YouTube video record. -/
def vidEx : YouTubeVideo :=
  ⟨"v1", "Title", "Channel", "Desc", "http://th", "1:00", "10", "2024"⟩

/-- A stored non-empty auxiliary payload. -/
def ytEx : Option StoredYt :=
  some ⟨⟨some [vidEx], some "q", some 1⟩, 5, "thread_1_abc"⟩

/-- A one-entry transcript whose single (and last) message is an assistant
message. -/
def msgs1 : List Message := [⟨"ai", "hello", some "m1"⟩]

/-- A session state mid-stream for turn `"thread_1_abc"`: loading, with one
buffered event. -/
def cs4 : AppState where
  processedEventsTimeline := [⟨"Web Research", "Gathered 1 sources. Related to: a."⟩]
  historicalActivities := fun _ => none
  youtubeResults := ytEx
  currentThreadId := "thread_1_abc"
  hasFinalizeEventOccurred := false
  messages := [⟨"human", "q", some "1"⟩]
  isLoading := true
  lastSubmit := none

/-- A stale `generate_query` event from the cancelled turn. -/
def evStale : RawEvent := ⟨none, none, some ⟨some (.arr ["q1"])⟩, none, none, false⟩

/-- The source list of the spec's Example 2: labels a, a, b, c, d. -/
def srcsEx : List SourceRec :=
  [⟨some "a"⟩, ⟨some "a"⟩, ⟨some "b"⟩, ⟨some "c"⟩, ⟨some "d"⟩]

/-- A `web_research` event carrying `srcsEx`. -/
def evWebEx : RawEvent := ⟨none, none, none, some ⟨some srcsEx⟩, none, false⟩

/-- A `youtube_action` event whose result list is present but empty. -/
def evYtEmpty : RawEvent :=
  ⟨none, some ⟨some ⟨some [], some "q", some 0⟩⟩, none, none, none, false⟩

/-- A malformed `classify_intent` event: the kind key is present but both
required sub-fields are missing. -/
def evMalformed : RawEvent := ⟨some ⟨none, none⟩, none, none, none, none, false⟩

/-!
## Helper lemmas
-/

/-- Joining a list whose head is a non-empty string yields a non-empty
string. -/
theorem joinComma_ne_empty (a : String) (as : List String) (ha : a ≠ "") :
    joinComma (a :: as) ≠ "" := by
  cases as with
  | nil => simpa [joinComma] using ha
  | cons b bs =>
    simp only [joinComma]
    intro h
    have hd : (a ++ ", " ++ joinComma (b :: bs)).data = ("" : String).data := by rw [h]
    have hnil : a.data ++ (", " : String).data ++ (joinComma (b :: bs)).data = [] := hd
    rcases List.append_eq_nil.mp hnil with ⟨h1, _⟩
    rcases List.append_eq_nil.mp h1 with ⟨_, h3⟩
    simp at h3

/-- The code's dedup of the truthy labels agrees with the spec-side
first-occurrence dedup of the non-empty labels, for any accumulator. -/
theorem dedupAux_eq_spec (srcs : List SourceRec) :
    ∀ seen, jsSetDedupAux seen (truthyLabels srcs) = specFirstDistinctLabels srcs seen := by
  induction srcs with
  | nil => intro seen; rfl
  | cons src rest ih =>
    intro seen
    cases hl : src.label with
    | none =>
      simp only [truthyLabels, List.filterMap_cons, hl, specFirstDistinctLabels]
      exact ih seen
    | some l =>
      by_cases he : l = ""
      · subst he
        simp only [truthyLabels, List.filterMap_cons, hl, specFirstDistinctLabels,
          if_pos rfl]
        simpa [truthyLabels] using ih seen
      · simp only [truthyLabels, List.filterMap_cons, hl, specFirstDistinctLabels,
          if_neg he]
        by_cases hm : l ∈ seen
        · rw [jsSetDedupAux, if_pos hm]
          have hcond : (l != "" && !(seen.contains l)) = false := by
            simp [List.elem_iff, hm]
          rw [hcond]
          simpa [truthyLabels] using ih seen
        · rw [jsSetDedupAux, if_neg hm]
          have hcond : (l != "" && !(seen.contains l)) = true := by
            simp [List.elem_iff, hm, he]
          rw [hcond]
          have hrec := ih (l :: seen)
          simp only [truthyLabels] at hrec
          simp [hrec]

/-- Every label selected by the spec-side dedup is non-empty. -/
theorem specLabels_ne_empty (srcs : List SourceRec) :
    ∀ seen x, x ∈ specFirstDistinctLabels srcs seen → x ≠ "" := by
  induction srcs with
  | nil => intro seen x hx; simp [specFirstDistinctLabels] at hx
  | cons src rest ih =>
    intro seen x hx
    cases hl : src.label with
    | none =>
      rw [specFirstDistinctLabels, hl] at hx
      exact ih seen x hx
    | some l =>
      simp only [specFirstDistinctLabels, hl] at hx
      by_cases hc : (l != "" && !(seen.contains l)) = true
      · rw [if_pos hc] at hx
        rcases List.mem_cons.mp hx with hxl | hx2
        · subst hxl
          simpa using (Bool.and_eq_true_iff.mp hc).1
        · exact ih (l :: seen) x hx2
      · rw [if_neg hc] at hx
        exact ih seen x hx

/-- The `web_research` branch's data string equals the spec-side summary. -/
theorem webResearchData_eq_spec (srcs : List SourceRec) :
    webResearchData srcs = specWebSummary srcs := by
  unfold webResearchData specWebSummary
  rw [jsSetDedup, dedupAux_eq_spec srcs []]
  cases hsp : specFirstDistinctLabels srcs [] with
  | nil => simp [joinComma]
  | cons a as =>
    have ha : a ≠ "" :=
      specLabels_ne_empty srcs [] a (by rw [hsp]; exact List.mem_cons_self a as)
    have htake : (a :: as).take 3 = a :: as.take 2 := rfl
    rw [htake]
    have hne := joinComma_ne_empty a (as.take 2) ha
    simp [hne]

/-!
## Claim theorems
-/

/-- C6: for every `web_research` event (reached by the dispatch chain) whose
`sources_gathered` list is present, the appended Progress summary reports
the count of gathered sources followed by the comma-join of the first three
distinct non-empty source labels, with the literal `"N/A"` when no such
label exists (stated against the independently written spec-side summary
`specWebSummary`). -/
theorem web_research_summary_spec (s : AppState) (now : Nat) (ev : RawEvent)
    (srcs : List SourceRec)
    (h1 : ev.classify_intent = none) (h2 : ev.youtube_action = none)
    (h3 : ev.generate_query = none) (h4 : ev.web_research = some ⟨some srcs⟩) :
    onUpdateEvent ev now s = pushEvent s ⟨"Web Research", specWebSummary srcs⟩ := by
  obtain ⟨ci, ya, gq, wr, rf, fin⟩ := ev
  simp only at h1 h2 h3 h4
  subst h1 h2 h3 h4
  simp only [onUpdateEvent]
  rw [show (WebResearchEvt.mk (some srcs)).sources_gathered.getD [] = srcs from rfl]
  rw [webResearchData_eq_spec]

/-- Witness for C6 at the spec's Example 2: sources labelled a, a, b, c, d
give exactly "Gathered 5 sources. Related to: a, b, c.". -/
theorem web_research_summary_spec_witness :
    onUpdateEvent evWebEx 0 initialAppState =
      pushEvent initialAppState ⟨"Web Research", specWebSummary srcsEx⟩ ∧
    specWebSummary srcsEx = "Gathered 5 sources. Related to: a, b, c." :=
  ⟨web_research_summary_spec initialAppState 0 evWebEx srcsEx rfl rfl rfl rfl,
   by decide⟩

/-- C10: a submission with non-empty input whose effort selector is none of
"low", "medium", "high" sends a config with
`initial_search_query_count = 0` and `max_research_loops = 0` (the switch
has no default arm, so both counters keep their zero initialisation). -/
theorem submit_unknown_effort_zero_config (s : AppState)
    (input effort model : String) (now : Nat) (rid : String)
    (hin : jsTrim input ≠ "") (h1 : effort ≠ "low") (h2 : effort ≠ "medium")
    (h3 : effort ≠ "high") :
    (handleSubmit s input effort model now rid).lastSubmit =
      some ⟨s.messages ++ [⟨"human", input, some (toString now)⟩], 0, 0, model⟩ := by
  simp [handleSubmit, hin, h1, h2, h3]

/-- Witness for C10 at effort "turbo". -/
theorem submit_unknown_effort_zero_config_witness :
    jsTrim "hi" ≠ "" ∧ "turbo" ≠ "low" ∧ "turbo" ≠ "medium" ∧ "turbo" ≠ "high" ∧
    (handleSubmit initialAppState "hi" "turbo" "g" 3 "r").lastSubmit =
      some ⟨[⟨"human", "hi", some "3"⟩], 0, 0, "g"⟩ :=
  ⟨by decide, by decide, by decide, by decide,
   submit_unknown_effort_zero_config initialAppState "hi" "turbo" "g" 3 "r"
     (by decide) (by decide) (by decide) (by decide)⟩

/-- C7: at the start of every submission with non-empty input, the auxiliary
result store is cleared if and only if the previous turn is not in flight
(`!thread.isLoading`); and an event delivery changes the stored auxiliary
payload only when the event carries a replacement payload with at least one
video. -/
theorem submit_clear_policy (s : AppState) (input effort model : String)
    (now : Nat) (rid : String) (hin : jsTrim input ≠ "") :
    ((handleSubmit s input effort model now rid).youtubeResults =
       if s.isLoading then s.youtubeResults else none) ∧
    ∀ (ev : RawEvent) (t : Nat) (s2 : AppState),
      (onUpdateEvent ev t s2).youtubeResults = s2.youtubeResults ∨
        ytEventNonEmpty ev = true := by
  constructor
  · simp [handleSubmit, hin]
  · intro ev t s2
    obtain ⟨ci, ya, gq, wr, rf, fin⟩ := ev
    cases ci with
    | some ci => left; simp [onUpdateEvent, pushEvent]
    | none =>
      cases ya with
      | some ya =>
        obtain ⟨yr⟩ := ya
        cases yr with
        | none => left; simp [onUpdateEvent, pushEvent]
        | some r =>
          obtain ⟨vs, q, tr⟩ := r
          cases vs with
          | none => left; simp [onUpdateEvent, pushEvent]
          | some vs =>
            by_cases h : vs.length = 0
            · left; simp [onUpdateEvent, pushEvent, h]
            · right; simp [ytEventNonEmpty, h]
      | none =>
        cases gq with
        | some gq => left; simp [onUpdateEvent, pushEvent]
        | none =>
          cases wr with
          | some wr => left; simp [onUpdateEvent, pushEvent]
          | none =>
            cases rf with
            | some rf => left; simp [onUpdateEvent, pushEvent]
            | none => left; cases fin <;> simp [onUpdateEvent, pushEvent]

/-- Witness for C7: submitting while the previous turn is still loading
preserves the stored payload. -/
theorem submit_clear_policy_witness :
    jsTrim "hi" ≠ "" ∧
    ((handleSubmit cs4 "hi" "low" "g" 9 "r").youtubeResults =
       if cs4.isLoading then cs4.youtubeResults else none) :=
  ⟨by decide, (submit_clear_policy cs4 "hi" "low" "g" 9 "r" (by decide)).1⟩

/-- C8: for a `youtube_action` event (reached by the dispatch chain), when the
result list is empty or absent the handler appends the zero-result Progress
event and leaves the stored auxiliary payload exactly as it was; the
payload is forwarded to the store only when it contains at least one
video. -/
theorem youtube_empty_frame (s : AppState) (now : Nat) (ev : RawEvent)
    (ya : YoutubeActionEvt)
    (hci : ev.classify_intent = none) (hya : ev.youtube_action = some ya) :
    (ytEventNonEmpty ev = false →
      (onUpdateEvent ev now s).youtubeResults = s.youtubeResults ∧
      (onUpdateEvent ev now s).processedEventsTimeline =
        s.processedEventsTimeline ++
          [⟨"YouTube Search", "No videos found or YouTube not configured"⟩]) ∧
    (ytEventNonEmpty ev = true →
      ∃ r vs, ya.youtube_results = some r ∧ r.videos = some vs ∧ vs.length ≠ 0 ∧
        (onUpdateEvent ev now s).youtubeResults = some ⟨r, now, s.currentThreadId⟩) := by
  obtain ⟨ci, ya2, gq, wr, rf, fin⟩ := ev
  simp only at hci hya
  subst hci hya
  obtain ⟨yr⟩ := ya
  cases yr with
  | none => simp [onUpdateEvent, ytEventNonEmpty, pushEvent]
  | some r =>
    obtain ⟨vs, q, tr⟩ := r
    cases vs with
    | none => simp [onUpdateEvent, ytEventNonEmpty, pushEvent]
    | some vs =>
      by_cases h : vs.length = 0
      · simp [onUpdateEvent, ytEventNonEmpty, pushEvent, h]
      · simp [onUpdateEvent, ytEventNonEmpty, pushEvent, h]
        exact List.ne_nil_of_length_pos (Nat.pos_of_ne_zero h)

/-- Witness for C8 at a `youtube_action` event with a present-but-empty video
list, delivered on a mid-stream state holding an earlier payload. -/
theorem youtube_empty_frame_witness :
    (onUpdateEvent evYtEmpty 9 cs4).youtubeResults = cs4.youtubeResults ∧
    (onUpdateEvent evYtEmpty 9 cs4).processedEventsTimeline =
      cs4.processedEventsTimeline ++
        [⟨"YouTube Search", "No videos found or YouTube not configured"⟩] :=
  (youtube_empty_frame cs4 9 evYtEmpty ⟨some ⟨some [], some "q", some 0⟩⟩
    rfl rfl).1 (by decide)

/-- C5 counterexample: a `classify_intent` record missing both required
sub-fields is not classified `Ignored` — the handler appends a placeholder
Progress event to the timeline. -/
theorem malformed_event_appends_counterexample :
    (onUpdateEvent evMalformed 0 initialAppState).processedEventsTimeline =
      [⟨"Analyzing Intent", "Detected: undefined (NaN% confidence)"⟩] ∧
    (onUpdateEvent evMalformed 0 initialAppState).processedEventsTimeline ≠
      initialAppState.processedEventsTimeline := by
  exact ⟨by decide, by decide⟩

/-- C5 amended: a record with no recognized kind key is ignored — the state,
including the ActivityTimeline and every store, is unchanged; a record
whose declared kind key is present but whose sub-fields are missing does
not raise, but it is classified best-effort as Progress, not `Ignored`. -/
theorem unrecognized_event_ignored (ev : RawEvent) (now : Nat) (s : AppState)
    (h : noKindEvent ev) : onUpdateEvent ev now s = s := by
  obtain ⟨ci, ya, gq, wr, rf, fin⟩ := ev
  obtain ⟨h1, h2, h3, h4, h5, h6⟩ := h
  simp only at h1 h2 h3 h4 h5 h6
  subst h1 h2 h3 h4 h5 h6
  simp [onUpdateEvent]

/-- Witness for the C5 amended theorem at a kind-less event. -/
theorem unrecognized_event_ignored_witness :
    noKindEvent ⟨none, none, none, none, none, false⟩ ∧
    onUpdateEvent ⟨none, none, none, none, none, false⟩ 3 cs4 = cs4 :=
  ⟨⟨rfl, rfl, rfl, rfl, rfl, rfl⟩,
   unrecognized_event_ignored ⟨none, none, none, none, none, false⟩ 3 cs4
     ⟨rfl, rfl, rfl, rfl, rfl, rfl⟩⟩

/-- C2 counterexample: after turn A archives under `"m1"`, a duplicate
terminal event delivered for the same turn leads to a second archival for
`"m1"` that replaces the stored sequence — `record` on an existing id is an
overwrite, not a no-op, so archival for the same message id happens twice. -/
theorem archive_double_terminal_counterexample :
    (archiveEffect cs0).historicalActivities "m1" = some [finE] ∧
    (archiveEffect (onUpdateEvent evFin 7 (archiveEffect cs0))).historicalActivities "m1" =
      some [finE, finE] ∧
    some [finE, finE] ≠ some [finE] := by
  exact ⟨by decide, by decide, by decide⟩

/-- C2 amended: the archive maps each message id to at most one entry, and
re-running the archival effect without a new terminal event never
re-archives — the effect is idempotent, because it resets the terminal
flag; but a duplicate terminal event re-arms the flag and the resulting
second archival overwrites the id's entry instead of being a no-op. -/
theorem archiveEffect_idem (s : AppState) :
    archiveEffect (archiveEffect s) = archiveEffect s := by
  have hnoflag : ∀ t : AppState, t.hasFinalizeEventOccurred = false →
      archiveEffect t = t := by
    intro t ht
    unfold archiveEffect
    rw [ht]
    simp
  by_cases hg : (s.hasFinalizeEventOccurred && !s.isLoading &&
      s.messages.length != 0) = true
  · have hflag : (archiveEffect s).hasFinalizeEventOccurred = false := by
      unfold archiveEffect
      rw [if_pos hg]
      repeat' split
      all_goals rfl
    exact hnoflag _ hflag
  · have h1 : archiveEffect s = s := by
      unfold archiveEffect
      rw [if_neg hg]
    rw [h1, h1]

/-- C3 counterexample: with the terminal flag set, loading over, and the last
message an assistant message with id `"m1"`, the transition archives the
buffer snapshot — but the ActivityTimeline buffer is not cleared: it still
holds the turn's events afterwards. -/
theorem terminal_transition_counterexample :
    (archiveEffect cs0).historicalActivities "m1" = some [finE] ∧
    (archiveEffect cs0).hasFinalizeEventOccurred = false ∧
    (archiveEffect cs0).processedEventsTimeline = [finE] ∧
    ([finE] : List ProcessedEvent) ≠ [] := by
  exact ⟨by decide, by decide, by decide, by decide⟩

/-- C3 amended: when the terminal flag is set, the transport reports the turn
is no longer loading, and the last transcript message is an assistant
message with a known (truthy) identifier, the transition records the
current buffer snapshot under that identifier and resets the terminal flag;
the buffer is not cleared at this transition — it is cleared only at the
start of the next submission. -/
theorem terminal_transition_no_clear (s : AppState) (lm : Message) (mid : String)
    (hflag : s.hasFinalizeEventOccurred = true) (hload : s.isLoading = false)
    (hlast : s.messages.getLast? = some lm) (htyp : lm.typ = "ai")
    (hid : lm.id = some mid) (hmid : mid ≠ "") :
    (archiveEffect s).historicalActivities mid = some s.processedEventsTimeline ∧
    (archiveEffect s).hasFinalizeEventOccurred = false ∧
    (archiveEffect s).processedEventsTimeline = s.processedEventsTimeline := by
  have hne : s.messages ≠ [] := by
    intro he
    rw [he] at hlast
    simp at hlast
  have hlen : (s.messages.length != 0) = true := by
    simpa using hne
  have hg : (s.hasFinalizeEventOccurred && !s.isLoading &&
      s.messages.length != 0) = true := by
    rw [hflag, hload, hlen]
    rfl
  unfold archiveEffect
  rw [if_pos hg]
  simp [hlast, hid, htyp, hmid]

/-- Witness for the C3 amended theorem at the post-turn state `cs0`. -/
theorem terminal_transition_no_clear_witness :
    (archiveEffect cs0).historicalActivities "m1" = some cs0.processedEventsTimeline ∧
    (archiveEffect cs0).hasFinalizeEventOccurred = false ∧
    (archiveEffect cs0).processedEventsTimeline = cs0.processedEventsTimeline :=
  terminal_transition_no_clear cs0 ⟨"ai", "ans", some "m1"⟩ "m1"
    rfl rfl (by decide) rfl rfl (by decide)

/-- C9 counterexample: turn A's events are archived under `"m1"`, but after a
cancellation (a later operation of the same session) the archive lookup for
`"m1"` returns nothing — entries do not survive cancellation. -/
theorem cancel_wipes_archive_counterexample :
    (archiveEffect cs0).historicalActivities "m1" = some [finE] ∧
    (handleCancel (archiveEffect cs0)).historicalActivities "m1" = none := by
  exact ⟨by decide, rfl⟩

/-- C9 amended: an archived entry is never removed or mutated by submissions,
by event deliveries, or by archival effect runs that target a different
message id; it can change only when a further archival records under the
same id again (possible after a duplicate terminal event) or when a
cancellation resets the whole session state. -/
theorem archive_entries_stable (s : AppState) (m : String)
    (input effort model : String) (now t : Nat) (rid : String) (ev : RawEvent) :
    ((handleSubmit s input effort model now rid).historicalActivities m =
       s.historicalActivities m) ∧
    ((onUpdateEvent ev t s).historicalActivities m = s.historicalActivities m) ∧
    (archiveTarget s ≠ some m →
      (archiveEffect s).historicalActivities m = s.historicalActivities m) := by
  refine ⟨?_, ?_, ?_⟩
  · unfold handleSubmit
    split <;> rfl
  · obtain ⟨ci, ya, gq, wr, rf, fin⟩ := ev
    cases ci with
    | some ci => simp [onUpdateEvent, pushEvent]
    | none =>
      cases ya with
      | some ya =>
        obtain ⟨yr⟩ := ya
        cases yr with
        | none => simp [onUpdateEvent, pushEvent]
        | some r =>
          obtain ⟨vs, q, tr⟩ := r
          cases vs with
          | none => simp [onUpdateEvent, pushEvent]
          | some vs =>
            by_cases h : vs.length = 0 <;> simp [onUpdateEvent, pushEvent, h]
      | none =>
        cases gq with
        | some gq => simp [onUpdateEvent, pushEvent]
        | none =>
          cases wr with
          | some wr => simp [onUpdateEvent, pushEvent]
          | none =>
            cases rf with
            | some rf => simp [onUpdateEvent, pushEvent]
            | none => cases fin <;> simp [onUpdateEvent, pushEvent]
  · intro hne
    unfold archiveTarget at hne
    unfold archiveEffect
    by_cases hg : (s.hasFinalizeEventOccurred && !s.isLoading &&
        s.messages.length != 0) = true
    · rw [if_pos hg]
      rw [if_pos hg] at hne
      cases hlast : s.messages.getLast? with
      | none => simp [hlast]
      | some lm =>
        simp only [hlast] at hne ⊢
        cases hid : lm.id with
        | none => simp [hid]
        | some mid =>
          simp only [hid] at hne ⊢
          by_cases hc : (lm.typ == "ai" && mid != "") = true
          · simp only [if_pos hc] at hne ⊢
            have hmm : m ≠ mid := fun he => hne (by rw [he])
            simp [hmm]
          · simp only [if_neg hc] at hne ⊢
    · rw [if_neg hg]

/-- Witness for the C9 amended theorem: the archival effect on `cs0` targets
`"m1"`, so the entry for a different id `"zzz"` is untouched. -/
theorem archive_entries_stable_witness :
    (archiveEffect cs0).historicalActivities "zzz" = cs0.historicalActivities "zzz" :=
  (archive_entries_stable cs0 "zzz" "x" "low" "g" 0 0 "r" evFin).2.2 (by decide)

/-- C4 counterexample: after cancellation the buffer is empty, but a stale
event from the cancelled turn, if delivered to the update handler, is
processed normally — it appends to the ActivityTimeline buffer instead of
being ignored, because the handler performs no turn-identifier check. -/
theorem cancel_stale_event_counterexample :
    (handleCancel cs4).processedEventsTimeline = [] ∧
    (onUpdateEvent evStale 5 (handleCancel cs4)).processedEventsTimeline =
      [⟨"Generating Search Queries", "q1"⟩] ∧
    [(⟨"Generating Search Queries", "q1"⟩ : ProcessedEvent)] ≠ [] := by
  exact ⟨rfl, by decide, by decide⟩

/-- C4 amended: cancellation stops the stream, clears the auxiliary result
store and discards the current turn identifier, and then resets the entire
page state (via `window.location.reload()`) to the initial idle state — so
no archive entry is added (indeed the whole archive is reset).  The reload
is what prevents later event delivery: the update handler itself performs
no turn-identifier filtering, so a stale event that does reach it is
processed, not ignored. -/
theorem cancel_resets_session (s : AppState) :
    (handleCancelPreReload s).isLoading = false ∧
    (handleCancelPreReload s).youtubeResults = none ∧
    (handleCancelPreReload s).currentThreadId = "" ∧
    (handleCancelPreReload s).historicalActivities = s.historicalActivities ∧
    handleCancel s = initialAppState ∧
    (handleCancel s).youtubeResults = none ∧
    (handleCancel s).currentThreadId = "" ∧
    (handleCancel s).isLoading = false ∧
    (∀ m, (handleCancel s).historicalActivities m = none) :=
  ⟨rfl, rfl, rfl, rfl, rfl, rfl, rfl, rfl, fun _ => rfl⟩

/-- C1 counterexample: over equal stored state (a one-message transcript whose
last entry is an assistant message, a non-empty stored payload, loading
off), the payload is displayed when the `YouTubeResults` component's
viewport-driven `isVisible` flag is `true` and hidden when it is `false` —
display is not a function of the stored state alone. -/
theorem render_visibility_counterexample :
    renderShowsYt msgs1 ytEx false 0 true = true ∧
    renderShowsYt msgs1 ytEx false 0 false = false := by
  exact ⟨by decide, by decide⟩

/-- C1 amended: the payload can be displayed only on the transcript's last
entry, only when that entry is not a human message, and only when the
stored payload is non-empty — never on an earlier message; but display
additionally requires the component's `IntersectionObserver`-driven
visibility flag, so it is a function of (stored state, visibility flag),
not of the stored state alone. -/
theorem render_gate_necessity (messages : List Message) (yt : Option StoredYt)
    (isLoading : Bool) (i : Nat) (vis : Bool)
    (h : renderShowsYt messages yt isLoading i vis = true) :
    i + 1 = messages.length ∧
    (∃ m, messages[i]? = some m ∧ m.typ ≠ "human") ∧
    ytNonEmpty yt = true ∧ vis = true := by
  unfold renderShowsYt at h
  cases hm : messages[i]? with
  | none => rw [hm] at h; simp at h
  | some m =>
    simp only [hm, shouldShowYouTube, youTubeResultsRenders, Bool.and_eq_true] at h
    obtain ⟨hhuman, ⟨hlast, hyt⟩, _, hvis⟩ := h
    have hl : i + 1 = messages.length := by simpa using hlast
    simp only [hlast, if_true] at hyt
    exact ⟨hl, ⟨m, rfl, by simpa using hhuman⟩, hyt, hvis⟩

/-- Witness for the C1 amended theorem: displaying on the last (assistant)
entry with a non-empty payload and the visibility flag on. -/
theorem render_gate_necessity_witness :
    renderShowsYt msgs1 ytEx false 0 true = true ∧
    (0 + 1 = msgs1.length ∧
     (∃ m, msgs1[0]? = some m ∧ m.typ ≠ "human") ∧
     ytNonEmpty ytEx = true ∧ true = true) :=
  ⟨by decide, render_gate_necessity msgs1 ytEx false 0 true (by decide)⟩
